import Mathlib

/-!
Verification of `src/Library/Core/gen_headers.py` (XSigma header generator).

The script is embedded shallowly: `gen_version_macros` and
`gen_threads_header` return the write action (path, content) they perform,
and `gen_headers_main` models the `if __name__ == '__main__'` dispatch as a
pure function from the full `sys.argv` list to the observable outcome
(lines printed to stdout, the file write if any, and the process exit code).
A filesystem is modelled as `String → Option String`; `runOnFs` applies the
write of one invocation to it.
-/

namespace GenHeaders

/-- The fixed text of `xsigma_version_macros.h` (the `content` literal in
`gen_version_macros`). -/
def version_macros_content : String :=
  "#ifndef XSIGMA_VERSION_MACROS_H\n#define XSIGMA_VERSION_MACROS_H\n\n#define XSIGMA_MAJOR_VERSION 1\n#define XSIGMA_MINOR_VERSION 0\n#define XSIGMA_BUILD_VERSION 0\n#define XSIGMA_VERSION_FULL \"1.0.0\"\n\n#endif // XSIGMA_VERSION_MACROS_H\n"

/-- The win32 variant text of `xsigma_threads.h` (first `content` literal in
`gen_threads_header`). -/
def threads_win32_content : String :=
  "#ifndef XSIGMA_THREADS_H\n#define XSIGMA_THREADS_H\n\n#define XSIGMA_USE_WIN32_THREADS 1\n#define XSIGMA_MAX_THREADS 64\n\n#endif // XSIGMA_THREADS_H\n"

/-- The pthreads variant text of `xsigma_threads.h` (second `content` literal
in `gen_threads_header`). -/
def threads_pthreads_content : String :=
  "#ifndef XSIGMA_THREADS_H\n#define XSIGMA_THREADS_H\n\n#define XSIGMA_USE_PTHREADS 1\n#define XSIGMA_MAX_THREADS 64\n\n#endif // XSIGMA_THREADS_H\n"

/-- The write action of `gen_version_macros(output_file)`: open for writing
(truncate) and write the fixed content. -/
def gen_version_macros (output_file : String) : String × String :=
  (output_file, version_macros_content)

/-- The write action of `gen_threads_header(output_file, use_win32)`. -/
def gen_threads_header (output_file : String) (use_win32 : Bool) : String × String :=
  (output_file, if use_win32 then threads_win32_content else threads_pthreads_content)

/-- Python truthiness of the `output_file` value (`None` and `""` are falsy,
every other string truthy). -/
def pyTruthy : Option String → Bool
  | none => false
  | some s => if s = "" then false else true

/-- The observable outcome of one invocation: lines printed to stdout, the
file write performed (path, content) if any, and the process exit status. -/
structure MainResult where
  printed : List String
  written : Option (String × String)
  exitCode : Nat
deriving DecidableEq, Repr

/-- The `__main__` block of `gen_headers.py`, as a function of the full
`sys.argv` list (`argv.getD 0 ""` is the script name, `argv.getD 1 ""` the
command). Mirrors the source line by line: the `len(sys.argv) < 2` usage
check, `output_file = sys.argv[2] if len(sys.argv) > 2 else None`, the
`command == 'version' and output_file` / `command == 'threads' and
output_file` dispatch with Python truthiness of `output_file`, the
`use_win32 = len(sys.argv) > 3 and sys.argv[3] == 'win32'` flag, and the
final `Unknown command` branch. Falling off the end of the script is exit
status 0. -/
def gen_headers_main (argv : List String) : MainResult :=
  if argv.length < 2 then
    { printed := ["Usage: gen_headers.py <command> [output_file]"],
      written := none, exitCode := 1 }
  else
    let command := argv.getD 1 ""
    let output_file : Option String :=
      if argv.length > 2 then some (argv.getD 2 "") else none
    if command = "version" ∧ pyTruthy output_file = true then
      { printed := [], written := some (gen_version_macros (output_file.getD "")),
        exitCode := 0 }
    else if command = "threads" ∧ pyTruthy output_file = true then
      let use_win32 : Bool :=
        if argv.length > 3 ∧ argv.getD 3 "" = "win32" then true else false
      { printed := [], written := some (gen_threads_header (output_file.getD "") use_win32),
        exitCode := 0 }
    else
      { printed := ["Unknown command: " ++ command], written := none, exitCode := 1 }

/-- A filesystem (path to content) after running one invocation on it:
`open(output_file, 'w')` truncates, so a performed write replaces the target
file's content wholesale and touches no other path. -/
def runOnFs (argv : List String) (fs : String → Option String) : String → Option String :=
  match (gen_headers_main argv).written with
  | none => fs
  | some pc => fun q => if q = pc.1 then some pc.2 else fs q


/-- C1: with first argument `version` and a non-empty output path, the file at
that path is written with exactly the fixed version-header text, regardless of
trailing arguments; exit status 0, nothing printed. -/
theorem version_emits_fixed_header (prog path : String) (rest : List String)
    (h : path ≠ "") :
    gen_headers_main (prog :: "version" :: path :: rest) =
      { printed := [], written := some (path, version_macros_content), exitCode := 0 } := by
  simp [gen_headers_main, gen_version_macros, pyTruthy, h]

/-- C1 witness at a concrete invocation with a trailing argument. -/
theorem version_emits_fixed_header_witness :
    ("out.h" : String) ≠ "" ∧
    gen_headers_main ["gen_headers.py", "version", "out.h", "extra"] =
      { printed := [], written := some ("out.h", version_macros_content), exitCode := 0 } :=
  ⟨by decide, version_emits_fixed_header "gen_headers.py" "out.h" ["extra"] (by decide)⟩

/-- C2: with first argument `threads`, a non-empty output path, and no third
argument or a third argument other than `win32`, the pthreads-variant header is
written; exit status 0. -/
theorem threads_nonwin32_emits_pthreads (prog path : String) (h : path ≠ "") :
    gen_headers_main [prog, "threads", path] =
      { printed := [], written := some (path, threads_pthreads_content), exitCode := 0 } ∧
    ∀ v rest, v ≠ "win32" →
      gen_headers_main (prog :: "threads" :: path :: v :: rest) =
        { printed := [], written := some (path, threads_pthreads_content), exitCode := 0 } := by
  constructor
  · simp [gen_headers_main, gen_threads_header, pyTruthy, h]
  · intro v rest hv
    simp [gen_headers_main, gen_threads_header, pyTruthy, h, hv]

/-- C2 witness at a concrete invocation with a non-win32 third argument. -/
theorem threads_nonwin32_emits_pthreads_witness :
    ("out.h" : String) ≠ "" ∧ ("posix" : String) ≠ "win32" ∧
    gen_headers_main ["gen_headers.py", "threads", "out.h", "posix"] =
      { printed := [], written := some ("out.h", threads_pthreads_content), exitCode := 0 } :=
  ⟨by decide, by decide,
    (threads_nonwin32_emits_pthreads "gen_headers.py" "out.h" (by decide)).2 "posix" []
      (by decide)⟩

set_option maxRecDepth 4000 in
/-- C3: with first argument `threads`, a non-empty output path, and third
argument exactly `win32`, the win32-variant header is written, and the string
`XSIGMA_USE_PTHREADS` does not occur anywhere in the written content. -/
theorem threads_win32_emits_win32 (prog path : String) (rest : List String)
    (h : path ≠ "") :
    gen_headers_main (prog :: "threads" :: path :: "win32" :: rest) =
      { printed := [], written := some (path, threads_win32_content), exitCode := 0 } ∧
    ¬ ("XSIGMA_USE_PTHREADS".toList <:+: threads_win32_content.toList) := by
  refine ⟨?_, by decide⟩
  simp [gen_headers_main, gen_threads_header, pyTruthy, h]

/-- C3 witness at a concrete invocation. -/
theorem threads_win32_emits_win32_witness :
    ("out.h" : String) ≠ "" ∧
    (gen_headers_main ["gen_headers.py", "threads", "out.h", "win32"] =
      { printed := [], written := some ("out.h", threads_win32_content), exitCode := 0 } ∧
    ¬ ("XSIGMA_USE_PTHREADS".toList <:+: threads_win32_content.toList)) :=
  ⟨by decide, threads_win32_emits_win32 "gen_headers.py" "out.h" [] (by decide)⟩

/-- C4: with a first argument that is neither `version` nor `threads`, the
process prints exactly `Unknown command: ` followed by that token, exits with
status 1, and writes no file. -/
theorem unknown_command_error (prog cmd : String) (rest : List String)
    (h1 : cmd ≠ "version") (h2 : cmd ≠ "threads") :
    gen_headers_main (prog :: cmd :: rest) =
      { printed := ["Unknown command: " ++ cmd], written := none, exitCode := 1 } := by
  simp [gen_headers_main, h1, h2]

/-- C4 witness at the concrete command `bogus`. -/
theorem unknown_command_error_witness :
    ("bogus" : String) ≠ "version" ∧ ("bogus" : String) ≠ "threads" ∧
    gen_headers_main ["gen_headers.py", "bogus", "x"] =
      { printed := ["Unknown command: bogus"], written := none, exitCode := 1 } :=
  ⟨by decide, by decide,
    unknown_command_error "gen_headers.py" "bogus" ["x"] (by decide) (by decide)⟩

/-- C5: a recognized command with no output path argument behaves exactly like
the unknown-command case: prints `Unknown command: ` plus the command name,
exit status 1, no file written. -/
theorem recognized_command_without_path (prog : String) :
    gen_headers_main [prog, "version"] =
      { printed := ["Unknown command: version"], written := none, exitCode := 1 } ∧
    gen_headers_main [prog, "threads"] =
      { printed := ["Unknown command: threads"], written := none, exitCode := 1 } := by
  constructor <;> simp [gen_headers_main, pyTruthy]

/-- C6: with no arguments at all beyond the script name (and even with an
empty `sys.argv`), the process prints the usage message, exits with status 1,
and writes no file. -/
theorem no_arguments_usage (prog : String) :
    gen_headers_main [prog] =
      { printed := ["Usage: gen_headers.py <command> [output_file]"],
        written := none, exitCode := 1 } ∧
    gen_headers_main [] =
      { printed := ["Usage: gen_headers.py <command> [output_file]"],
        written := none, exitCode := 1 } := by
  constructor <;> simp [gen_headers_main]

/-- C7: the exit status is 0 exactly when a header file write was performed,
and 1 exactly when no file was written (missing, unknown or incomplete
command). -/
theorem exit_code_characterization (argv : List String) :
    ((gen_headers_main argv).exitCode = 0 ↔ (gen_headers_main argv).written.isSome = true) ∧
    ((gen_headers_main argv).exitCode = 1 ↔ (gen_headers_main argv).written.isSome = false) := by
  match argv with
  | [] => simp [gen_headers_main]
  | [p] => simp [gen_headers_main]
  | p :: c :: [] =>
      by_cases h1 : c = "version" <;> by_cases h2 : c = "threads" <;>
        simp [gen_headers_main, pyTruthy, h1, h2]
  | p :: c :: o :: rest =>
      by_cases h1 : c = "version" <;> by_cases h2 : c = "threads" <;>
          by_cases ho : o = "" <;>
        simp [gen_headers_main, pyTruthy, gen_version_macros, gen_threads_header,
          h1, h2, ho] <;> split <;> simp

/-- C8: each invocation fully overwrites its target: running the same
invocation twice leaves the filesystem exactly as running it once, and when a
write is performed the resulting content at the written path is independent of
the file's prior content. -/
theorem overwrite_idempotent (argv : List String) :
    (∀ fs, runOnFs argv (runOnFs argv fs) = runOnFs argv fs) ∧
    (∀ p c fs fs', (gen_headers_main argv).written = some (p, c) →
      runOnFs argv fs p = some c ∧ runOnFs argv fs p = runOnFs argv fs' p) := by
  constructor
  · intro fs
    funext q
    unfold runOnFs
    cases hw : (gen_headers_main argv).written with
    | none => rfl
    | some pc =>
        by_cases hq : q = pc.1 <;> simp [hq]
  · intro p c fs fs' hw
    simp [runOnFs, hw]

/-- C8 witness: a concrete `version` invocation writes its fixed content over
two different prior filesystem states. -/
theorem overwrite_idempotent_witness :
    (gen_headers_main ["gen_headers.py", "version", "out.h"]).written =
      some ("out.h", version_macros_content) ∧
    (runOnFs ["gen_headers.py", "version", "out.h"] (fun _ => none) "out.h" =
        some version_macros_content ∧
      runOnFs ["gen_headers.py", "version", "out.h"] (fun _ => none) "out.h" =
        runOnFs ["gen_headers.py", "version", "out.h"] (fun _ => some "old") "out.h") :=
  ⟨rfl,
    (overwrite_idempotent ["gen_headers.py", "version", "out.h"]).2 "out.h"
      version_macros_content (fun _ => none) (fun _ => some "old") rfl⟩

/-- C9: a recognized command whose second argument is present but the empty
string is routed to the error branch: prints `Unknown command: ` plus the
command name, exit status 1, no file written. -/
theorem empty_output_path_error (prog : String) (rest : List String) :
    gen_headers_main (prog :: "version" :: "" :: rest) =
      { printed := ["Unknown command: version"], written := none, exitCode := 1 } ∧
    gen_headers_main (prog :: "threads" :: "" :: rest) =
      { printed := ["Unknown command: threads"], written := none, exitCode := 1 } := by
  constructor <;> simp [gen_headers_main, pyTruthy]

/-- C10: on every successful emission path nothing is printed to stdout and
the exit status is 0. -/
theorem success_prints_nothing (argv : List String)
    (h : (gen_headers_main argv).written.isSome = true) :
    (gen_headers_main argv).printed = [] ∧ (gen_headers_main argv).exitCode = 0 := by
  revert h
  match argv with
  | [] => simp [gen_headers_main]
  | [p] => simp [gen_headers_main]
  | p :: c :: [] =>
      by_cases h1 : c = "version" <;> by_cases h2 : c = "threads" <;>
        simp [gen_headers_main, pyTruthy, h1, h2]
  | p :: c :: o :: rest =>
      by_cases h1 : c = "version" <;> by_cases h2 : c = "threads" <;>
          by_cases ho : o = "" <;>
        simp [gen_headers_main, pyTruthy, gen_version_macros, gen_threads_header,
          h1, h2, ho] <;> split <;> simp

/-- C10 witness at a concrete successful `threads` invocation. -/
theorem success_prints_nothing_witness :
    (gen_headers_main ["gen_headers.py", "threads", "out.h"]).written.isSome = true ∧
    ((gen_headers_main ["gen_headers.py", "threads", "out.h"]).printed = [] ∧
      (gen_headers_main ["gen_headers.py", "threads", "out.h"]).exitCode = 0) :=
  ⟨rfl, success_prints_nothing ["gen_headers.py", "threads", "out.h"] rfl⟩

end GenHeaders
